import Mathlib

/-!
# Ticket-Booking-System: pool, controller, sign-in form and ticket table

A shallow embedding of

* the simulation core the specification describes (`TicketPool`,
  `SimulationController`), whose implementation lives in the backend and is
  modelled from the specification;
* `SignIn.handleSubmit` from `pages/SignIn.js`;
* the ticket table of `pages/ViewAllTickets.js`: search, pagination, the
  Start/Stop button map and deletion.

React state is passed explicitly; the answer of an HTTP request is an input of
the handler that awaits it.
-/

namespace TicketBooking

/-! ## TicketPool -/

/-- Modelled from the spec: the backend `TicketPool` (section 3 and 4.1), a
bounded buffer described by its capacity, its lifetime cap and three counters.
The counters are integers, as in the specification, so that the lower bounds of
the invariant are statements and not typing facts. -/
structure TicketPool where
  capacity : Int
  totalTickets : Int
  current : Int
  released : Int
  retrieved : Int
  deriving DecidableEq, Repr

namespace TicketPool

/-- Modelled from the spec: a fresh pool built from `maxTicketCapacity` and
`totalTickets`, all counters at zero. -/
def create (capacity totalTickets : Int) : TicketPool :=
  { capacity := capacity, totalTickets := totalTickets,
    current := 0, released := 0, retrieved := 0 }

/-- Modelled from the spec: `tryAdd` (section 4.1). Succeeds iff
`current < capacity` and `released < totalTickets`; on success increments
`current` and `released`; otherwise fails with no side effect. -/
def tryAdd (p : TicketPool) : Bool × TicketPool :=
  if p.current < p.capacity ∧ p.released < p.totalTickets then
    (true, { p with current := p.current + 1, released := p.released + 1 })
  else
    (false, p)

/-- Modelled from the spec: `tryRemove` (section 4.1). Succeeds iff
`current > 0`; on success decrements `current` and increments `retrieved`. -/
def tryRemove (p : TicketPool) : Bool × TicketPool :=
  if p.current > 0 then
    (true, { p with current := p.current - 1, retrieved := p.retrieved + 1 })
  else
    (false, p)

/-- Modelled from the spec: `snapshot()` returns `{current, released, retrieved}`. -/
def snapshot (p : TicketPool) : Int × Int × Int :=
  (p.current, p.released, p.retrieved)

/-- The two mutating calls of the pool. Calls are mutually exclusive (one
critical section per pool), so a concurrent history is a sequence of them. -/
inductive Op
  | add
  | remove
  deriving DecidableEq, Repr

/-- One call applied to the pool; the boolean answer is dropped. -/
def step (p : TicketPool) : Op → TicketPool
  | Op.add => (tryAdd p).2
  | Op.remove => (tryRemove p).2

/-- Every pool state observable between operations while `ops` is applied in
order: the starting state, then the state after each call. -/
def snapshots (p : TicketPool) : List Op → List TicketPool
  | [] => [p]
  | op :: ops => p :: snapshots (step p op) ops

/-- The invariant of section 3. -/
def Invariant (p : TicketPool) : Prop :=
  0 ≤ p.current ∧ p.current ≤ p.capacity ∧
  p.retrieved ≤ p.released ∧ p.released ≤ p.totalTickets ∧
  p.current = p.released - p.retrieved

instance (p : TicketPool) : Decidable (Invariant p) := by
  unfold Invariant; infer_instance

end TicketPool

/-! ## SimulationController -/

/-- Modelled from the spec: the state enum of a run (section 6). -/
inductive RunState
  | Running
  | Stopped
  | Completed
  deriving DecidableEq, Repr

/-- Modelled from the spec: the error taxonomy of section 7. -/
inductive SimError
  | AlreadyRunning
  | UnknownRun
  | InvalidConfiguration
  deriving DecidableEq, Repr

/-- Modelled from the spec: `TicketConfiguration` (section 3). Rates are
intervals in milliseconds. -/
structure TicketConfiguration where
  id : String
  vendor : String
  title : String
  totalTickets : Int
  maxTicketCapacity : Int
  ticketReleaseRate : Int
  customerRetrievalRate : Int
  deriving DecidableEq, Repr

/-- Modelled from the spec: `SimulationRun` (section 3): one configuration, its
pool, the worker counts of the request and the run state. -/
structure SimulationRun where
  config : TicketConfiguration
  pool : TicketPool
  producers : Nat
  consumers : Nat
  state : RunState
  deriving DecidableEq, Repr

/-- Modelled from the spec: the controller owns all runs, keyed by
configuration id. -/
structure SimulationController where
  runs : List (String × SimulationRun)
  deriving DecidableEq, Repr

namespace SimulationController

/-- The run registered for `id`, if any. -/
def find (c : SimulationController) (id : String) : Option SimulationRun :=
  c.runs.lookup id

/-- Registers `run` under `id`, replacing an earlier run of that id. -/
def register (c : SimulationController) (id : String) (run : SimulationRun) :
    SimulationController :=
  { runs := (id, run) :: c.runs.filter (fun e => e.1 != id) }

/-- Modelled from the spec: a run for `id` is active when it is registered as
`Running`. -/
def isActive (c : SimulationController) (id : String) : Bool :=
  match c.find id with
  | some run => run.state == RunState.Running
  | none => false

/-- Modelled from the spec: `InvalidConfiguration` is a non-positive
capacity, total tickets, or rate. -/
def validConfiguration (cfg : TicketConfiguration) : Bool :=
  decide (0 < cfg.maxTicketCapacity) && decide (0 < cfg.totalTickets) &&
  decide (0 < cfg.ticketReleaseRate) && decide (0 < cfg.customerRetrievalRate)

/-- Modelled from the spec: `Start` (section 4.5). Fails with `AlreadyRunning`
if a run for the id is active; otherwise rejects an invalid configuration
before any worker is spawned; otherwise builds a fresh pool from the
configuration and registers the run as `Running`. The result is the answer to
the caller together with the controller afterwards. -/
def Start (c : SimulationController) (cfg : TicketConfiguration)
    (producers consumers : Nat) :
    Except SimError SimulationRun × SimulationController :=
  if c.isActive cfg.id then
    (Except.error SimError.AlreadyRunning, c)
  else if !validConfiguration cfg then
    (Except.error SimError.InvalidConfiguration, c)
  else
    let run : SimulationRun :=
      { config := cfg
        pool := TicketPool.create cfg.maxTicketCapacity cfg.totalTickets
        producers := producers
        consumers := consumers
        state := RunState.Running }
    (Except.ok run, c.register cfg.id run)

/-- Modelled from the spec: `Stop` (section 4.5). Marks an active run
`Stopped` and keeps its final snapshot; a no-op on an unknown or already
stopped id. -/
def Stop (c : SimulationController) (id : String) : SimulationController :=
  match c.find id with
  | some run =>
    if run.state == RunState.Running then
      c.register id { run with state := RunState.Stopped }
    else c
  | none => c

/-- Modelled from the spec: `Status` (section 4.5) returns the state and the
last known snapshot; an unknown id gives nothing. -/
def Status (c : SimulationController) (id : String) :
    Option (RunState × (Int × Int × Int)) :=
  (c.find id).map (fun run => (run.state, run.pool.snapshot))

end SimulationController

/-! ## JavaScript values -/

/-- An integer that JavaScript prints in plain decimal: its magnitude is below
`10^21`. -/
abbrev JSInt : Type := { n : Int // n.natAbs < 10 ^ 21 }

/-- A JavaScript value, as found in the JSON bodies the pages read:
`undefined` (also an absent property), `null`, booleans, integers of magnitude
below `10^21`, strings, and `other`: any further value (a fractional number, a
number of magnitude `10^21` or more, an array, an object). A value of the last
kind is truthy and is carried by its string form, the only thing the pages
read of it. -/
inductive JSValue
  | undefined
  | null
  | bool (b : Bool)
  | number (n : JSInt)
  | string (s : String)
  | other (stringForm : String)
  deriving DecidableEq, Repr

namespace JSValue

/-- JavaScript truthiness (`ToBoolean`). -/
def truthy : JSValue → Bool
  | undefined => false
  | null => false
  | bool b => b
  | number n => n.val != 0
  | string s => s != ""
  | other _ => true

/-- The string form `String(v)`, which is also what `localStorage.setItem`
stores and what `v.toString()` returns for a value that is not nullish. -/
def toStr : JSValue → String
  | undefined => "undefined"
  | null => "null"
  | bool true => "true"
  | bool false => "false"
  | number n => toString n.val
  | string s => s
  | other stringForm => stringForm

/-- A value is nullish when it is `undefined` or `null`. -/
def isNullish : JSValue → Bool
  | undefined => true
  | null => true
  | _ => false

/-- The optional call `v?.toString()`: nothing for a nullish value. -/
def optToString (v : JSValue) : Option String :=
  if v.isNullish then none else some v.toStr

end JSValue

/-- `s.startsWith(searchString)`. -/
def startsWith (s searchString : String) : Bool :=
  searchString.data.isPrefixOf s.data

/-- Writing property `k` of a plain object, as in `o[k] = v` or
`{...o, [k]: v}`: an existing property is replaced, a new one is added. -/
def setKey {β : Type} : List (String × β) → String → β → List (String × β)
  | [], k, v => [(k, v)]
  | (k', v') :: rest, k, v =>
    if k' = k then (k, v) :: rest else (k', v') :: setKey rest k v

/-- Reading property `k` of a plain object; `none` stands for `undefined`. -/
def getKey {β : Type} : List (String × β) → String → Option β
  | [], _ => none
  | (k', v') :: rest, k => if k' = k then some v' else getKey rest k

/-! ## SignIn.js -/

/-- The `formData` state of the sign-in form. -/
structure FormData where
  email : String
  password : String
  deriving DecidableEq, Repr

/-- A sign-in answer body that can be destructured into `userId`, `token` and
`isAdmin`, that is, any body other than `null` and `undefined`; a property the
body lacks is `undefined`. -/
structure SignInData where
  userId : JSValue
  token : JSValue
  isAdmin : JSValue
  deriving DecidableEq, Repr

/-- The body of an error answer: its `error` property. -/
structure ErrorData where
  error : JSValue
  deriving DecidableEq, Repr

/-- The `response` property of a rejected request; `data` is `none` when it is
falsy. -/
structure ErrorResponse where
  data : Option ErrorData
  deriving DecidableEq, Repr

/-- The error a rejected `axios.post` throws; `response` is `none` when the
server did not answer. -/
structure AxiosError where
  response : Option ErrorResponse
  deriving DecidableEq, Repr

/-- How the awaited `axios.post` settles. The `data` of a resolved response is
`none` when the body is `null` or `undefined`. -/
inductive AxiosResult
  | resolved (status : Nat) (data : Option SignInData)
  | rejected (error : AxiosError)
  deriving DecidableEq, Repr

/-- What `handleSubmit` does to the world outside the component: an
`axios.post(url, body)`, a `localStorage.setItem(key, value)`, an assignment
`window.location.href = href`. -/
inductive Effect
  | post (url : String) (body : FormData)
  | setItem (key value : String)
  | navigate (href : String)
  deriving DecidableEq, Repr

/-- The sign-in page: its React state together with the contents of the
browser's localStorage. -/
structure SignIn where
  formData : FormData
  errorMessage : JSValue
  successMessage : JSValue
  localStorage : List (String × String)
  deriving DecidableEq, Repr

namespace SignIn

/-- The component as first rendered, in a browser with the given storage. -/
def init (localStorage : List (String × String)) : SignIn :=
  { formData := { email := "", password := "" }
    errorMessage := JSValue.string ""
    successMessage := JSValue.string ""
    localStorage := localStorage }

/-- `handleChange` for the two inputs of the form, named `email` and
`password`. -/
def handleChange (name value : String) (s : SignIn) : SignIn :=
  if name = "email" then { s with formData := { s.formData with email := value } }
  else if name = "password" then { s with formData := { s.formData with password := value } }
  else s

/-- The `catch` block of `handleSubmit`. `response` is the `response`
property of the caught error: `none` when the request got no answer, and
`none` for a `TypeError` thrown inside the `try` block. -/
def handleError (response : Option ErrorResponse) (s : SignIn) : SignIn :=
  let s1 : SignIn :=
    match response with
    | some { data := some d } =>
      { s with errorMessage :=
          if d.error.truthy then d.error else JSValue.string "Something went wrong!" }
    | _ => { s with errorMessage := JSValue.string "Network error. Please try again." }
  { s1 with successMessage := JSValue.string "" }

/-- `handleSubmit`. `axiosPost url body` is how the request to `url` with
`body` settles; it is consulted only when the request is issued. The result is
the effects of the call, in the order they happen, and the state afterwards.
Destructuring a `null` or `undefined` body throws a `TypeError`, which the
`catch` block receives. -/
def handleSubmit (axiosPost : String → FormData → AxiosResult) (s : SignIn) :
    List Effect × SignIn :=
  if s.formData.email = "admin@gmail.com" ∧ s.formData.password = "admin" then
    ([Effect.navigate "/view-tickets"], s)
  else
    let url := "http://localhost:5000/api/customers/signin"
    match axiosPost url s.formData with
    | AxiosResult.resolved status body =>
      if status = 200 then
        match body with
        | some data =>
          let s1 : SignIn :=
            { s with localStorage := setKey s.localStorage "authToken" data.token.toStr }
          if data.isAdmin.truthy then
            ([Effect.post url s.formData, Effect.setItem "authToken" data.token.toStr,
              Effect.navigate "/view-tickets"], s1)
          else
            ([Effect.post url s.formData, Effect.setItem "authToken" data.token.toStr,
              Effect.navigate "avilable-tickets"], s1)
        | none => ([Effect.post url s.formData], handleError none s)
      else ([Effect.post url s.formData], s)
    | AxiosResult.rejected error =>
      ([Effect.post url s.formData], handleError error.response s)

end SignIn

/-! ## ViewAllTickets.js -/

/-- A ticket record of `GET /api/tickets`. A property the record lacks is
`undefined`. -/
structure Ticket where
  _id : String
  vendor : JSValue
  title : JSValue
  totalTickets : JSValue
  maxTicketCapacity : JSValue
  ticketReleaseRate : JSValue
  customerRetrievalRate : JSValue
  deriving DecidableEq, Repr

/-- The values of the "Search Criteria" select. -/
inductive SearchCriteria
  | title
  | vendor
  | maxTicketCapacity
  deriving DecidableEq, Repr

/-- The property read `ticket[searchCriteria]`. -/
def Ticket.get (ticket : Ticket) : SearchCriteria → JSValue
  | SearchCriteria.title => ticket.title
  | SearchCriteria.vendor => ticket.vendor
  | SearchCriteria.maxTicketCapacity => ticket.maxTicketCapacity

/-- An entry of `buttonStates`. -/
structure ButtonState where
  start : Bool
  stop : Bool
  deriving DecidableEq, Repr

/-- The React state of the `ViewTickets` component. -/
structure ViewTickets where
  ticketData : List Ticket
  buttonStates : List (String × ButtonState)
  searchQuery : String
  searchCriteria : SearchCriteria
  page : Nat
  rowsPerPage : Nat
  deriving DecidableEq, Repr

/-- `xs.slice(start, end)` of JavaScript arrays, for integer arguments. -/
def slice {α : Type} (xs : List α) (start finish : Int) : List α :=
  let len : Int := xs.length
  let k : Int := if start < 0 then max (len + start) 0 else min start len
  let final : Int := if finish < 0 then max (len + finish) 0 else min finish len
  (xs.drop k.toNat).take (final - k).toNat

namespace ViewTickets

/-- The state of the first render. -/
def init : ViewTickets :=
  { ticketData := [], buttonStates := [], searchQuery := ""
    searchCriteria := SearchCriteria.title, page := 0, rowsPerPage := 10 }

/-- The `initialStates` object `fetchTicketData` builds with `forEach`. -/
def initialStates (tickets : List Ticket) : List (String × ButtonState) :=
  tickets.foldl (fun acc ticket => setKey acc ticket._id { start := false, stop := false }) []

/-- `fetchTicketData`: `response` is the body of the answer, `none` when the
request fails. -/
def fetchTicketData (response : Option (List Ticket)) (s : ViewTickets) : ViewTickets :=
  match response with
  | some data => { s with ticketData := data, buttonStates := initialStates data }
  | none => s

/-- `handleDelete`. `ticketData` is the list the handler closed over when the
row was rendered, `ok` whether the DELETE request succeeds, `s` the state the
update is applied to. -/
def handleDelete (ticketData : List Ticket) (ok : Bool) (id : String)
    (s : ViewTickets) : ViewTickets :=
  if ok then { s with ticketData := ticketData.filter (fun ticket => ticket._id != id) }
  else s

/-- `handleStartSimulation`; `ok` is whether the POST request succeeds. -/
def handleStartSimulation (ok : Bool) (ticketId : String) (s : ViewTickets) : ViewTickets :=
  if ok then
    { s with buttonStates := setKey s.buttonStates ticketId { start := true, stop := false } }
  else s

/-- `handleStopSimulation`; `ok` is whether the POST request succeeds. -/
def handleStopSimulation (ok : Bool) (ticketId : String) (s : ViewTickets) : ViewTickets :=
  if ok then
    { s with buttonStates := setKey s.buttonStates ticketId { start := false, stop := true } }
  else s

/-- `handleSearchQueryChange`. -/
def handleSearchQueryChange (value : String) (s : ViewTickets) : ViewTickets :=
  { s with searchQuery := value }

/-- `handleCriteriaChange`. -/
def handleCriteriaChange (value : SearchCriteria) (s : ViewTickets) : ViewTickets :=
  { s with searchCriteria := value }

/-- `handleChangePage`. -/
def handleChangePage (newPage : Nat) (s : ViewTickets) : ViewTickets :=
  { s with page := newPage }

/-- The callback of the search filter. `toLowerCase` is the lower-casing of
JavaScript strings (the Unicode case mapping of the engine). The result is the
JavaScript value the callback returns; `filter` keeps the ticket when it is
truthy. -/
def searchCallback (toLowerCase : String → String) (searchQuery : String)
    (searchCriteria : SearchCriteria) (ticket : Ticket) : JSValue :=
  if searchQuery = "" then JSValue.bool true
  else
    let field : Option String := (ticket.get searchCriteria).optToString.map toLowerCase
    match field with
    | some f => JSValue.bool (startsWith f (toLowerCase searchQuery))
    | none => JSValue.undefined

/-- `filteredTickets`. -/
def filteredTickets (toLowerCase : String → String) (s : ViewTickets) : List Ticket :=
  s.ticketData.filter
    (fun ticket => (searchCallback toLowerCase s.searchQuery s.searchCriteria ticket).truthy)

/-- The slice taken by `paginatedTickets` from a filtered list. -/
def pageOf (filtered : List Ticket) (page rowsPerPage : Nat) : List Ticket :=
  slice filtered ((page * rowsPerPage : Nat) : Int) ((page * rowsPerPage + rowsPerPage : Nat) : Int)

/-- `paginatedTickets`. -/
def paginatedTickets (toLowerCase : String → String) (s : ViewTickets) : List Ticket :=
  pageOf (filteredTickets toLowerCase s) s.page s.rowsPerPage

/-- The `disabled` property of the Start button of a row:
`buttonStates[ticket._id]?.start`. -/
def startDisabled (s : ViewTickets) (ticketId : String) : Bool :=
  match getKey s.buttonStates ticketId with
  | some b => b.start
  | none => false

/-- The `disabled` property of the Stop button of a row:
`buttonStates[ticket._id]?.stop`. -/
def stopDisabled (s : ViewTickets) (ticketId : String) : Bool :=
  match getKey s.buttonStates ticketId with
  | some b => b.stop
  | none => false

/-- The outcomes of the two simulation handlers. -/
inductive Action
  | start (ticketId : String) (ok : Bool)
  | stop (ticketId : String) (ok : Bool)
  deriving DecidableEq, Repr

/-- The ticket id an action is about. -/
def Action.ticketId : Action → String
  | Action.start ticketId _ => ticketId
  | Action.stop ticketId _ => ticketId

/-- One handler outcome applied to the state. -/
def act (s : ViewTickets) : Action → ViewTickets
  | Action.start ticketId ok => handleStartSimulation ok ticketId s
  | Action.stop ticketId ok => handleStopSimulation ok ticketId s

/-- The states passed through while `actions` happen in order, the starting
state first. -/
def trace (s : ViewTickets) : List Action → List ViewTickets
  | [] => [s]
  | a :: actions => s :: trace (act s a) actions

end ViewTickets

/-- The falsy values as JavaScript lists them: `undefined`, `null`, `false`,
`0` and the empty string. Every other value is truthy. -/
def JSValue.Falsy (v : JSValue) : Prop :=
  v = JSValue.undefined ∨ v = JSValue.null ∨ v = JSValue.bool false ∨
  v = JSValue.string "" ∨ ∃ n : JSInt, v = JSValue.number n ∧ n.val = 0

/-- The claim's `t[c]`: the property of the ticket that the criterion names. -/
def searchedField (c : SearchCriteria) (t : Ticket) : JSValue :=
  match c with
  | SearchCriteria.title => t.title
  | SearchCriteria.vendor => t.vendor
  | SearchCriteria.maxTicketCapacity => t.maxTicketCapacity

/-- The claim's "string form" of a value that is present: nothing for `null`
and `undefined`, the text itself for a string, the decimal digits for an
integer, `true` or `false` for a boolean. -/
def stringForm : JSValue → Option String
  | JSValue.undefined => none
  | JSValue.null => none
  | JSValue.bool true => some "true"
  | JSValue.bool false => some "false"
  | JSValue.number n => some (toString n.val)
  | JSValue.string text => some text
  | JSValue.other form => some form

/-- The claim's wording of the search: the ticket is kept when the query is
empty, or the field is present and its lower-cased string form starts with the
lower-cased query. -/
def matchesQuery (toLowerCase : String → String) (q : String) (c : SearchCriteria)
    (t : Ticket) : Prop :=
  q = "" ∨ ∃ form ∈ stringForm (searchedField c t),
    (toLowerCase q).data <+: (toLowerCase form).data

instance matchesQuery.decidable (toLowerCase : String → String) (q : String)
    (c : SearchCriteria) (t : Ticket) : Decidable (matchesQuery toLowerCase q c t) := by
  unfold matchesQuery; infer_instance

/-- A ticket with the given id and title, other properties fixed; used to
write down concrete ticket lists. -/
def sampleTicket (id : String) (title : JSValue) : Ticket :=
  { _id := id, vendor := JSValue.string "City Events", title := title
    totalTickets := JSValue.number ⟨100, by decide⟩
    maxTicketCapacity := JSValue.number ⟨20, by decide⟩
    ticketReleaseRate := JSValue.number ⟨2, by decide⟩
    customerRetrievalRate := JSValue.number ⟨3, by decide⟩ }

/-- A filled-in sign-in form of a customer, in a browser with empty storage;
used to write down concrete runs of `handleSubmit`. -/
def sampleForm : SignIn :=
  { SignIn.init [] with formData := { email := "ann@example.com", password := "pw" } }

/-- A backend that answers every request with status 200 and a body holding
the given `token` and `isAdmin`. -/
def answer200 (token isAdmin : JSValue) : String → FormData → AxiosResult :=
  fun _ _ => AxiosResult.resolved 200
    (some { userId := JSValue.string "u1", token := token, isAdmin := isAdmin })

/-- A ticket with the given id, vendor, title and capacity, other properties
fixed. -/
def sampleRow (id : String) (vendor title maxTicketCapacity : JSValue) : Ticket :=
  { _id := id, vendor := vendor, title := title
    totalTickets := JSValue.number ⟨100, by decide⟩
    maxTicketCapacity := maxTicketCapacity
    ticketReleaseRate := JSValue.number ⟨2, by decide⟩
    customerRetrievalRate := JSValue.number ⟨3, by decide⟩ }

/-- Four tickets: one complete, one without a title, one with a lower-case
vendor, one with a `null` vendor and a capacity that prints as `1e+21`. -/
def sampleRows : List Ticket :=
  [sampleRow "r1" (JSValue.string "Acme") (JSValue.string "Rock Night")
     (JSValue.number ⟨20, by decide⟩),
   sampleRow "r2" (JSValue.string "Beta") JSValue.undefined
     (JSValue.number ⟨100, by decide⟩),
   sampleRow "r3" (JSValue.string "acme live") (JSValue.string "Jazz")
     (JSValue.number ⟨25, by decide⟩),
   sampleRow "r4" JSValue.null (JSValue.string "ROCKET") (JSValue.other "1e+21")]

/-- ASCII lower-casing, an instance of the `toLowerCase` parameter that agrees
with JavaScript on ASCII text. -/
def asciiLower (s : String) : String :=
  ⟨s.data.map Char.toLower⟩

/-! ## Theorems: pool and controller -/

theorem TicketPool.invariant_create (capacity totalTickets : Int)
    (hc : 1 ≤ capacity) (ht : 1 ≤ totalTickets) :
    (TicketPool.create capacity totalTickets).Invariant := by
  simp only [TicketPool.Invariant, TicketPool.create]
  omega

theorem TicketPool.invariant_step (p : TicketPool) (op : TicketPool.Op)
    (h : p.Invariant) : (p.step op).Invariant := by
  obtain ⟨h1, h2, h3, h4, h5⟩ := h
  cases op
  · simp only [TicketPool.step, TicketPool.tryAdd]
    split
    · rename_i hc
      simp only [TicketPool.Invariant]
      omega
    · exact ⟨h1, h2, h3, h4, h5⟩
  · simp only [TicketPool.step, TicketPool.tryRemove]
    split
    · rename_i hc
      simp only [TicketPool.Invariant]
      omega
    · exact ⟨h1, h2, h3, h4, h5⟩

theorem TicketPool.invariant_snapshots (ops : List TicketPool.Op) :
    ∀ p : TicketPool, p.Invariant → ∀ s ∈ p.snapshots ops, s.Invariant := by
  induction ops with
  | nil =>
    intro p hp s hs
    simp only [TicketPool.snapshots, List.mem_singleton] at hs
    exact hs ▸ hp
  | cons op ops ih =>
    intro p hp s hs
    simp only [TicketPool.snapshots, List.mem_cons] at hs
    rcases hs with rfl | hs
    · exact hp
    · exact ih _ (TicketPool.invariant_step p op hp) s hs

theorem TicketPool.step_capacity (p : TicketPool) (op : TicketPool.Op) :
    (p.step op).capacity = p.capacity ∧ (p.step op).totalTickets = p.totalTickets := by
  cases op
  · simp only [TicketPool.step, TicketPool.tryAdd]; split <;> simp
  · simp only [TicketPool.step, TicketPool.tryRemove]; split <;> simp

theorem TicketPool.snapshots_capacity (ops : List TicketPool.Op) :
    ∀ p : TicketPool, ∀ s ∈ p.snapshots ops,
      s.capacity = p.capacity ∧ s.totalTickets = p.totalTickets := by
  induction ops with
  | nil =>
    intro p s hs
    simp only [TicketPool.snapshots, List.mem_singleton] at hs
    subst hs; exact ⟨rfl, rfl⟩
  | cons op ops ih =>
    intro p s hs
    simp only [TicketPool.snapshots, List.mem_cons] at hs
    rcases hs with rfl | hs
    · exact ⟨rfl, rfl⟩
    · have h := ih _ s hs
      have h2 := TicketPool.step_capacity p op
      exact ⟨h.1.trans h2.1, h.2.trans h2.2⟩

/-- C1: for every pool created with capacity >= 1 and totalTickets >= 1 and
every finite sequence of tryAdd / tryRemove calls applied from the initial
state, every snapshot between operations has `0 <= current <= capacity`,
`retrieved <= released <= totalTickets` and `current = released - retrieved`
(with `capacity` and `totalTickets` the values the pool was created with). -/
theorem C1_pool_invariant (capacity totalTickets : Int)
    (hc : 1 ≤ capacity) (ht : 1 ≤ totalTickets) (ops : List TicketPool.Op) :
    ∀ s ∈ (TicketPool.create capacity totalTickets).snapshots ops,
      0 ≤ s.current ∧ s.current ≤ capacity ∧
      s.retrieved ≤ s.released ∧ s.released ≤ totalTickets ∧
      s.current = s.released - s.retrieved := by
  intro s hs
  have hinv := TicketPool.invariant_snapshots ops _
    (TicketPool.invariant_create capacity totalTickets hc ht) s hs
  have hcap := TicketPool.snapshots_capacity ops _ s hs
  simp only [TicketPool.create] at hcap
  obtain ⟨h1, h2, h3, h4, h5⟩ := hinv
  rw [hcap.1] at h2
  rw [hcap.2] at h4
  exact ⟨h1, h2, h3, h4, h5⟩

/-- Witness for C1: capacity 1, lifetime cap 2, the calls add, add, remove,
add, remove, remove. -/
theorem C1_pool_invariant_witness :
    (1 : Int) ≤ 1 ∧ (1 : Int) ≤ 2 ∧
    ∀ s ∈ (TicketPool.create 1 2).snapshots
        [TicketPool.Op.add, TicketPool.Op.add, TicketPool.Op.remove,
         TicketPool.Op.add, TicketPool.Op.remove, TicketPool.Op.remove],
      0 ≤ s.current ∧ s.current ≤ 1 ∧
      s.retrieved ≤ s.released ∧ s.released ≤ 2 ∧
      s.current = s.released - s.retrieved :=
  ⟨by decide, by decide, C1_pool_invariant 1 2 (by decide) (by decide) _⟩

/-- C2: `tryAdd` returns true iff `current < capacity` and
`released < totalTickets`; on true, `current` and `released` grow by exactly 1
and `retrieved` (and the two bounds) stay; on false the pool is unchanged. -/
theorem C2_tryAdd (p : TicketPool) :
    ((p.tryAdd).1 = true ↔ (p.current < p.capacity ∧ p.released < p.totalTickets)) ∧
    ((p.tryAdd).1 = true →
      (p.tryAdd).2.current = p.current + 1 ∧
      (p.tryAdd).2.released = p.released + 1 ∧
      (p.tryAdd).2.retrieved = p.retrieved ∧
      (p.tryAdd).2.capacity = p.capacity ∧
      (p.tryAdd).2.totalTickets = p.totalTickets) ∧
    ((p.tryAdd).1 = false → (p.tryAdd).2 = p) := by
  unfold TicketPool.tryAdd
  split <;> simp_all

/-- Witness for C2: a pool with room (2 of 3 held, 5 of 10 released) accepts
the ticket and holds 3 afterwards. -/
theorem C2_tryAdd_witness :
    ((TicketPool.mk 3 10 2 5 3).tryAdd).1 = true ∧
    ((TicketPool.mk 3 10 2 5 3).tryAdd).2.current = 2 + 1 :=
  ⟨by decide, ((C2_tryAdd (TicketPool.mk 3 10 2 5 3)).2.1 (by decide)).1⟩

/-- C3: when a run for `cfg.id` is registered as `Running`, `Start` with that
id answers `AlreadyRunning` and leaves the controller, hence the run, its state
and its pool snapshot, unchanged. -/
theorem C3_start_already_running (c : SimulationController) (cfg : TicketConfiguration)
    (producers consumers : Nat) (run : SimulationRun)
    (hfind : c.find cfg.id = some run) (hrun : run.state = RunState.Running) :
    (c.Start cfg producers consumers).1 = Except.error SimError.AlreadyRunning ∧
    (c.Start cfg producers consumers).2 = c ∧
    (c.Start cfg producers consumers).2.find cfg.id = some run ∧
    (c.Start cfg producers consumers).2.Status cfg.id
      = some (RunState.Running, run.pool.snapshot) := by
  have hact : c.isActive cfg.id = true := by
    simp [SimulationController.isActive, hfind, hrun]
  simp [SimulationController.Start, hact, SimulationController.Status, hfind, hrun]

/-- Witness for C3: a controller holding one running run, started again with
the same id. -/
theorem C3_start_already_running_witness :
    (SimulationController.mk
        [("t1", { config := ⟨"t1", "v", "concert", 10, 3, 100, 150⟩
                  pool := ⟨3, 10, 2, 5, 3⟩
                  producers := 1, consumers := 1
                  state := RunState.Running })]).find "t1"
      = some { config := ⟨"t1", "v", "concert", 10, 3, 100, 150⟩
               pool := ⟨3, 10, 2, 5, 3⟩
               producers := 1, consumers := 1
               state := RunState.Running } ∧
    ((SimulationController.mk
        [("t1", { config := ⟨"t1", "v", "concert", 10, 3, 100, 150⟩
                  pool := ⟨3, 10, 2, 5, 3⟩
                  producers := 1, consumers := 1
                  state := RunState.Running })]).Start
        ⟨"t1", "w", "other", 7, 2, 50, 60⟩ 2 2).1
      = Except.error SimError.AlreadyRunning :=
  ⟨by decide,
   (C3_start_already_running
      (SimulationController.mk
        [("t1", { config := ⟨"t1", "v", "concert", 10, 3, 100, 150⟩
                  pool := ⟨3, 10, 2, 5, 3⟩
                  producers := 1, consumers := 1
                  state := RunState.Running })])
      ⟨"t1", "w", "other", 7, 2, 50, 60⟩ 2 2
      { config := ⟨"t1", "v", "concert", 10, 3, 100, 150⟩
        pool := ⟨3, 10, 2, 5, 3⟩
        producers := 1, consumers := 1
        state := RunState.Running }
      (by decide) rfl).1⟩

/-! ## Theorems: plain objects -/

theorem getKey_setKey_self {β : Type} (o : List (String × β)) (k : String) (v : β) :
    getKey (setKey o k v) k = some v := by
  induction o with
  | nil => simp [setKey, getKey]
  | cons e rest ih =>
    obtain ⟨k', v'⟩ := e
    by_cases h : k' = k
    · simp [setKey, getKey, h]
    · simp [setKey, getKey, h, ih]

theorem getKey_setKey_other {β : Type} (o : List (String × β)) (k k' : String) (v : β)
    (h : k' ≠ k) : getKey (setKey o k v) k' = getKey o k' := by
  induction o with
  | nil => simp [setKey, getKey, Ne.symm h]
  | cons e rest ih =>
    obtain ⟨k₀, v₀⟩ := e
    by_cases h0 : k₀ = k
    · subst h0
      simp [setKey, getKey, Ne.symm h]
    · simp only [setKey, h0, if_false, getKey, ih]

/-! ## Theorems: SignIn -/

/-- C4: `handleSubmit` issues the sign-in POST request iff the form does not
hold exactly "admin@gmail.com" / "admin", and then it is the first effect, to
the sign-in URL with the form data as body. When both match, the only effect is
the navigation to "/view-tickets": no request, no write to localStorage, and
the state (`errorMessage`, `successMessage`, localStorage, the form) is
unchanged. -/
theorem C4_admin_shortcut (axiosPost : String → FormData → AxiosResult) (s : SignIn) :
    ((∃ url body, Effect.post url body ∈ (SignIn.handleSubmit axiosPost s).1)
      ↔ ¬ (s.formData.email = "admin@gmail.com" ∧ s.formData.password = "admin")) ∧
    (¬ (s.formData.email = "admin@gmail.com" ∧ s.formData.password = "admin") →
      (SignIn.handleSubmit axiosPost s).1.head?
        = some (Effect.post "http://localhost:5000/api/customers/signin" s.formData)) ∧
    ((s.formData.email = "admin@gmail.com" ∧ s.formData.password = "admin") →
      (SignIn.handleSubmit axiosPost s).1 = [Effect.navigate "/view-tickets"] ∧
      (∀ key value, Effect.setItem key value ∉ (SignIn.handleSubmit axiosPost s).1) ∧
      (SignIn.handleSubmit axiosPost s).2.localStorage = s.localStorage ∧
      (SignIn.handleSubmit axiosPost s).2.errorMessage = s.errorMessage ∧
      (SignIn.handleSubmit axiosPost s).2.successMessage = s.successMessage ∧
      (SignIn.handleSubmit axiosPost s).2 = s) := by
  have hhead : ¬ (s.formData.email = "admin@gmail.com" ∧ s.formData.password = "admin") →
      (SignIn.handleSubmit axiosPost s).1.head?
        = some (Effect.post "http://localhost:5000/api/customers/signin" s.formData) := by
    intro h
    simp only [SignIn.handleSubmit, if_neg h]
    cases axiosPost "http://localhost:5000/api/customers/signin" s.formData with
    | resolved status body =>
      by_cases h200 : status = 200
      · cases body with
        | none => simp [h200]
        | some data => by_cases ht : data.isAdmin.truthy = true <;> simp [h200, ht]
      · simp [h200]
    | rejected error => rfl
  have hadm : (s.formData.email = "admin@gmail.com" ∧ s.formData.password = "admin") →
      SignIn.handleSubmit axiosPost s = ([Effect.navigate "/view-tickets"], s) := by
    intro h
    simp only [SignIn.handleSubmit, if_pos h]
  refine ⟨⟨?_, ?_⟩, hhead, ?_⟩
  · rintro ⟨url, body, hmem⟩ hadmin
    rw [hadm hadmin] at hmem
    simp at hmem
  · intro h
    exact ⟨_, _, List.mem_of_mem_head? (hhead h)⟩
  · intro h
    rw [hadm h]
    simp

/-- Witness for C4: the admin form, and a form with another password. -/
theorem C4_admin_shortcut_witness :
    (SignIn.handleSubmit
        (fun _ _ => AxiosResult.rejected { response := none })
        { SignIn.init [] with formData := ⟨"admin@gmail.com", "admin"⟩ }).1
      = [Effect.navigate "/view-tickets"] ∧
    (SignIn.handleSubmit
        (fun _ _ => AxiosResult.rejected { response := none })
        { SignIn.init [] with formData := ⟨"admin@gmail.com", "Admin"⟩ }).1
      = [Effect.post "http://localhost:5000/api/customers/signin"
          ⟨"admin@gmail.com", "Admin"⟩] :=
  ⟨((C4_admin_shortcut (fun _ _ => AxiosResult.rejected { response := none })
      { SignIn.init [] with formData := ⟨"admin@gmail.com", "admin"⟩ }).2.2
        ⟨rfl, rfl⟩).1,
   by decide⟩

theorem truthy_iff_not_falsy (v : JSValue) : v.truthy = true ↔ ¬ v.Falsy := by
  cases v with
  | undefined => simp [JSValue.truthy, JSValue.Falsy]
  | null => simp [JSValue.truthy, JSValue.Falsy]
  | bool b => cases b <;> simp [JSValue.truthy, JSValue.Falsy]
  | number n => simp [JSValue.truthy, JSValue.Falsy]
  | string text => simp [JSValue.truthy, JSValue.Falsy]
  | other form => simp [JSValue.truthy, JSValue.Falsy]

/-- C5, as the claim states it, fails: a non-admin form whose request resolves
with status 200 and the body `null`. The destructuring throws, so the POST is
the only effect: nothing is stored under "authToken", there is no navigation,
and the `catch` block sets `errorMessage`. -/
theorem C5_null_body_counterexample :
    (SignIn.handleSubmit (fun _ _ => AxiosResult.resolved 200 none)
        { SignIn.init [] with formData := ⟨"ann@example.com", "pw"⟩ }).1
      = [Effect.post "http://localhost:5000/api/customers/signin"
          ⟨"ann@example.com", "pw"⟩] ∧
    getKey (SignIn.handleSubmit (fun _ _ => AxiosResult.resolved 200 none)
        { SignIn.init [] with formData := ⟨"ann@example.com", "pw"⟩ }).2.localStorage
      "authToken" = none ∧
    (SignIn.handleSubmit (fun _ _ => AxiosResult.resolved 200 none)
        { SignIn.init [] with formData := ⟨"ann@example.com", "pw"⟩ }).2.errorMessage
      = JSValue.string "Network error. Please try again." := by
  decide

/-- C5, amended: for a form that is not the admin shortcut, when the request
resolves with status 200 and a body that is not `null` or `undefined`, the
effects are the POST, then `localStorage.setItem("authToken", stored)`, then a
navigation to `href`, where `stored` is the string form of the body's `token`
(the token itself when it is a string) and `href` is "/view-tickets" if
`isAdmin` is truthy and "avilable-tickets" if it is falsy; the messages are
unchanged. When it resolves with status 200 and a `null` or `undefined` body,
nothing is stored, there is no navigation, `errorMessage` becomes
"Network error. Please try again." and `successMessage` the empty string. When
it resolves with another status, nothing is stored, there is no navigation and
the messages are unchanged. -/
theorem C5_backend_answer (axiosPost : String → FormData → AxiosResult) (s : SignIn)
    (status : Nat) (body : Option SignInData)
    (hform : ¬ (s.formData.email = "admin@gmail.com" ∧ s.formData.password = "admin"))
    (hanswer : axiosPost "http://localhost:5000/api/customers/signin" s.formData
      = AxiosResult.resolved status body) :
    (status = 200 → ∀ data : SignInData, body = some data →
      ∃ stored href : String,
        (SignIn.handleSubmit axiosPost s).1
          = [Effect.post "http://localhost:5000/api/customers/signin" s.formData,
             Effect.setItem "authToken" stored, Effect.navigate href] ∧
        (SignIn.handleSubmit axiosPost s).2.localStorage
          = setKey s.localStorage "authToken" stored ∧
        getKey (SignIn.handleSubmit axiosPost s).2.localStorage "authToken" = some stored ∧
        (∀ k, k ≠ "authToken" →
          getKey (SignIn.handleSubmit axiosPost s).2.localStorage k
            = getKey s.localStorage k) ∧
        (SignIn.handleSubmit axiosPost s).2.errorMessage = s.errorMessage ∧
        (SignIn.handleSubmit axiosPost s).2.successMessage = s.successMessage ∧
        (∀ text, data.token = JSValue.string text → stored = text) ∧
        (∀ n : JSInt, data.token = JSValue.number n → stored = toString n.val) ∧
        (∀ form, data.token = JSValue.other form → stored = form) ∧
        (data.token = JSValue.bool true → stored = "true") ∧
        (data.token = JSValue.bool false → stored = "false") ∧
        (data.token = JSValue.null → stored = "null") ∧
        (data.token = JSValue.undefined → stored = "undefined") ∧
        (¬ data.isAdmin.Falsy → href = "/view-tickets") ∧
        (data.isAdmin.Falsy → href = "avilable-tickets")) ∧
    (status = 200 → body = none →
      (SignIn.handleSubmit axiosPost s).1
        = [Effect.post "http://localhost:5000/api/customers/signin" s.formData] ∧
      (SignIn.handleSubmit axiosPost s).2.localStorage = s.localStorage ∧
      (SignIn.handleSubmit axiosPost s).2.errorMessage
        = JSValue.string "Network error. Please try again." ∧
      (SignIn.handleSubmit axiosPost s).2.successMessage = JSValue.string "") ∧
    (status ≠ 200 →
      (SignIn.handleSubmit axiosPost s).1
        = [Effect.post "http://localhost:5000/api/customers/signin" s.formData] ∧
      (SignIn.handleSubmit axiosPost s).2.localStorage = s.localStorage ∧
      (SignIn.handleSubmit axiosPost s).2.errorMessage = s.errorMessage ∧
      (SignIn.handleSubmit axiosPost s).2.successMessage = s.successMessage) := by
  simp only [SignIn.handleSubmit, if_neg hform, hanswer]
  refine ⟨?_, ?_, ?_⟩
  · intro h200 data hbody
    subst hbody
    simp only [h200, if_true]
    have hstore : ∀ href : String,
        (∀ text, data.token = JSValue.string text → data.token.toStr = text) ∧
        (∀ n : JSInt, data.token = JSValue.number n → data.token.toStr = toString n.val) ∧
        (∀ form, data.token = JSValue.other form → data.token.toStr = form) ∧
        (data.token = JSValue.bool true → data.token.toStr = "true") ∧
        (data.token = JSValue.bool false → data.token.toStr = "false") ∧
        (data.token = JSValue.null → data.token.toStr = "null") ∧
        (data.token = JSValue.undefined → data.token.toStr = "undefined") := by
      intro _
      refine ⟨?_, ?_, ?_, ?_, ?_, ?_, ?_⟩ <;> intros <;> simp_all [JSValue.toStr]
    by_cases hadm : data.isAdmin.truthy = true
    · have hnf := (truthy_iff_not_falsy _).1 hadm
      refine ⟨data.token.toStr, "/view-tickets", ?_⟩
      rw [if_pos hadm]
      refine ⟨rfl, rfl, getKey_setKey_self _ _ _,
        fun k hk => getKey_setKey_other _ _ _ _ hk, rfl, rfl, ?_⟩
      obtain ⟨h1, h2, h3, h4, h5, h6, h7⟩ := hstore ""
      exact ⟨h1, h2, h3, h4, h5, h6, h7, fun _ => rfl, fun hf => absurd hf hnf⟩
    · have hf : data.isAdmin.Falsy := by
        by_contra hn
        exact hadm ((truthy_iff_not_falsy _).2 hn)
      refine ⟨data.token.toStr, "avilable-tickets", ?_⟩
      rw [if_neg hadm]
      refine ⟨rfl, rfl, getKey_setKey_self _ _ _,
        fun k hk => getKey_setKey_other _ _ _ _ hk, rfl, rfl, ?_⟩
      obtain ⟨h1, h2, h3, h4, h5, h6, h7⟩ := hstore ""
      exact ⟨h1, h2, h3, h4, h5, h6, h7, fun hn => absurd hf hn, fun _ => rfl⟩
  · intro h200 hbody
    subst hbody
    simp [h200, SignIn.handleError]
  · intro h200
    simp [h200]

/-- Witness for C5: an administrator whose token is the number 42 (from the
theorem), then answers with other kinds of `token` and `isAdmin`, evaluated. -/
theorem C5_backend_answer_witness :
    (SignIn.handleSubmit
        (answer200 (JSValue.number ⟨42, by decide⟩) (JSValue.bool true)) sampleForm).1
      = [Effect.post "http://localhost:5000/api/customers/signin" ⟨"ann@example.com", "pw"⟩,
         Effect.setItem "authToken" "42", Effect.navigate "/view-tickets"] ∧
    (SignIn.handleSubmit
        (answer200 (JSValue.string "tok") (JSValue.bool false)) sampleForm).1
      = [Effect.post "http://localhost:5000/api/customers/signin" ⟨"ann@example.com", "pw"⟩,
         Effect.setItem "authToken" "tok", Effect.navigate "avilable-tickets"] ∧
    (SignIn.handleSubmit
        (answer200 (JSValue.other "1e+21") (JSValue.number ⟨1, by decide⟩)) sampleForm).1
      = [Effect.post "http://localhost:5000/api/customers/signin" ⟨"ann@example.com", "pw"⟩,
         Effect.setItem "authToken" "1e+21", Effect.navigate "/view-tickets"] ∧
    (SignIn.handleSubmit
        (answer200 JSValue.undefined (JSValue.number ⟨0, by decide⟩)) sampleForm).1
      = [Effect.post "http://localhost:5000/api/customers/signin" ⟨"ann@example.com", "pw"⟩,
         Effect.setItem "authToken" "undefined", Effect.navigate "avilable-tickets"] ∧
    (SignIn.handleSubmit
        (answer200 (JSValue.bool true) (JSValue.string "")) sampleForm).1
      = [Effect.post "http://localhost:5000/api/customers/signin" ⟨"ann@example.com", "pw"⟩,
         Effect.setItem "authToken" "true", Effect.navigate "avilable-tickets"] ∧
    (SignIn.handleSubmit
        (answer200 JSValue.null (JSValue.other "[object Object]")) sampleForm).1
      = [Effect.post "http://localhost:5000/api/customers/signin" ⟨"ann@example.com", "pw"⟩,
         Effect.setItem "authToken" "null", Effect.navigate "/view-tickets"] ∧
    (SignIn.handleSubmit
        (answer200 (JSValue.number ⟨-7, by decide⟩) (JSValue.string "yes")) sampleForm).1
      = [Effect.post "http://localhost:5000/api/customers/signin" ⟨"ann@example.com", "pw"⟩,
         Effect.setItem "authToken" "-7", Effect.navigate "/view-tickets"] ∧
    (SignIn.handleSubmit
        (answer200 (JSValue.bool false) JSValue.undefined) sampleForm).1
      = [Effect.post "http://localhost:5000/api/customers/signin" ⟨"ann@example.com", "pw"⟩,
         Effect.setItem "authToken" "false", Effect.navigate "avilable-tickets"] ∧
    (SignIn.handleSubmit
        (answer200 (JSValue.string "tok") JSValue.null) sampleForm).2.localStorage
      = [("authToken", "tok")] := by
  refine ⟨?_, by decide, by decide, by decide, by decide, by decide, by decide, by decide,
    by decide⟩
  obtain ⟨stored, href, heff, _, _, _, _, _, _, hnum, _, _, _, _, _, hadmin, _⟩ :=
    (C5_backend_answer
      (answer200 (JSValue.number ⟨42, by decide⟩) (JSValue.bool true)) sampleForm 200
      (some { userId := JSValue.string "u1", token := JSValue.number ⟨42, by decide⟩,
              isAdmin := JSValue.bool true })
      (by decide) rfl).1 rfl _ rfl
  have hs : stored = "42" := (hnum ⟨42, by decide⟩ rfl).trans (by decide)
  have hh : href = "/view-tickets" := hadmin (by simp [JSValue.Falsy])
  rw [heff, hs, hh]
  rfl

/-! ## Theorems: ticket search -/

theorem startsWith_iff (s q : String) : startsWith s q = true ↔ q.data <+: s.data := by
  simp [startsWith]

theorem get_eq_searchedField (c : SearchCriteria) (t : Ticket) :
    t.get c = searchedField c t := by
  cases c <;> rfl

theorem optToString_eq_stringForm (v : JSValue) : v.optToString = stringForm v := by
  cases v with
  | bool b => cases b <;> rfl
  | _ => rfl

theorem searchCallback_truthy (toLowerCase : String → String) (q : String)
    (c : SearchCriteria) (t : Ticket) :
    (ViewTickets.searchCallback toLowerCase q c t).truthy = true
      ↔ matchesQuery toLowerCase q c t := by
  unfold ViewTickets.searchCallback matchesQuery
  rw [get_eq_searchedField, optToString_eq_stringForm]
  by_cases hq : q = ""
  · simp [hq, JSValue.truthy]
  · simp only [hq, if_false, false_or]
    cases hv : stringForm (searchedField c t) <;>
      simp [JSValue.truthy, startsWith_iff]

theorem filteredTickets_eq (toLowerCase : String → String) (s : ViewTickets) :
    ViewTickets.filteredTickets toLowerCase s
      = s.ticketData.filter
          (fun t => decide (matchesQuery toLowerCase s.searchQuery s.searchCriteria t)) := by
  unfold ViewTickets.filteredTickets
  apply List.filter_congr
  intro t _
  by_cases h : matchesQuery toLowerCase s.searchQuery s.searchCriteria t
  · simp [h, (searchCallback_truthy toLowerCase _ _ t).2 h]
  · have h2 : ¬ (ViewTickets.searchCallback toLowerCase s.searchQuery s.searchCriteria
        t).truthy = true := fun hc => h ((searchCallback_truthy toLowerCase _ _ t).1 hc)
    simp [h, h2]

/-- C6: `filteredTickets` is the order-preserving sublist of `ticketData` made
of exactly the tickets for which the query is empty, or the searched field
(`title`, `vendor` or `maxTicketCapacity`, as the criterion names it) is
present (not null/undefined) and its lower-cased string form starts with the
lower-cased query. An empty query returns `ticketData` unchanged; a ticket
lacking the field is excluded by every non-empty query; two non-empty queries
with the same lower-cased form select the same tickets. -/
theorem C6_ticket_search (toLowerCase : String → String) (s : ViewTickets) :
    ViewTickets.filteredTickets toLowerCase s
      = s.ticketData.filter
          (fun t => decide (matchesQuery toLowerCase s.searchQuery s.searchCriteria t)) ∧
    (ViewTickets.filteredTickets toLowerCase s).Sublist s.ticketData ∧
    (∀ t, t ∈ ViewTickets.filteredTickets toLowerCase s
      ↔ t ∈ s.ticketData ∧ matchesQuery toLowerCase s.searchQuery s.searchCriteria t) ∧
    (s.searchQuery = "" → ViewTickets.filteredTickets toLowerCase s = s.ticketData) ∧
    (∀ t, s.searchQuery ≠ "" →
      (searchedField s.searchCriteria t = JSValue.undefined ∨
        searchedField s.searchCriteria t = JSValue.null) →
      t ∉ ViewTickets.filteredTickets toLowerCase s) ∧
    (∀ q, q ≠ "" → s.searchQuery ≠ "" → toLowerCase q = toLowerCase s.searchQuery →
      ViewTickets.filteredTickets toLowerCase { s with searchQuery := q }
        = ViewTickets.filteredTickets toLowerCase s) := by
  have heq := filteredTickets_eq toLowerCase s
  refine ⟨heq, ?_, ?_, ?_, ?_, ?_⟩
  · rw [heq]; exact List.filter_sublist _
  · intro t
    rw [heq]
    simp [List.mem_filter]
  · intro hq
    rw [heq]
    simp [matchesQuery, hq]
  · intro t hq hnull hmem
    rw [heq] at hmem
    have hm := (List.mem_filter.1 hmem).2
    simp only [decide_eq_true_eq, matchesQuery] at hm
    rcases hm with hm | ⟨form, hform, _⟩
    · exact hq hm
    · rcases hnull with h | h <;> rw [h] at hform <;> simp [stringForm] at hform
  · intro q hq hs hlow
    rw [heq, filteredTickets_eq]
    apply List.filter_congr
    intro t _
    simp [matchesQuery, hq, hs, hlow]

/-- Witness for C6: the four sample tickets under ASCII lower-casing, searched
by title with "ro" (from the theorem), then by vendor, by capacity and with an
empty query, evaluated. -/
theorem C6_ticket_search_witness :
    ViewTickets.filteredTickets asciiLower
        { ViewTickets.init with ticketData := sampleRows, searchQuery := "ro" }
      = [sampleRow "r1" (JSValue.string "Acme") (JSValue.string "Rock Night")
           (JSValue.number ⟨20, by decide⟩),
         sampleRow "r4" JSValue.null (JSValue.string "ROCKET") (JSValue.other "1e+21")] ∧
    (ViewTickets.filteredTickets asciiLower
        { ViewTickets.init with ticketData := sampleRows, searchQuery := "ACME"
                                searchCriteria := SearchCriteria.vendor }).map (fun t => t._id)
      = ["r1", "r3"] ∧
    (ViewTickets.filteredTickets asciiLower
        { ViewTickets.init with ticketData := sampleRows, searchQuery := "2"
                                searchCriteria := SearchCriteria.maxTicketCapacity }).map
        (fun t => t._id)
      = ["r1", "r3"] ∧
    (ViewTickets.filteredTickets asciiLower
        { ViewTickets.init with ticketData := sampleRows, searchQuery := "10"
                                searchCriteria := SearchCriteria.maxTicketCapacity }).map
        (fun t => t._id)
      = ["r2"] ∧
    (ViewTickets.filteredTickets asciiLower
        { ViewTickets.init with ticketData := sampleRows, searchQuery := "1E"
                                searchCriteria := SearchCriteria.maxTicketCapacity }).map
        (fun t => t._id)
      = ["r4"] ∧
    (ViewTickets.filteredTickets asciiLower
        { ViewTickets.init with ticketData := sampleRows, searchQuery := "j" }).map
        (fun t => t._id)
      = ["r3"] ∧
    (ViewTickets.filteredTickets asciiLower
        { ViewTickets.init with ticketData := sampleRows
                                searchCriteria := SearchCriteria.vendor }).map (fun t => t._id)
      = ["r1", "r2", "r3", "r4"] :=
  ⟨(C6_ticket_search asciiLower
      { ViewTickets.init with ticketData := sampleRows, searchQuery := "ro" }).1.trans
      (by decide),
   by decide, by decide, by decide, by decide, by decide, by decide⟩

/-! ## Theorems: pagination -/

theorem slice_nat {α : Type} (xs : List α) (a r : Nat) :
    slice xs ((a : Nat) : Int) ((a + r : Nat) : Int) = (xs.drop a).take r := by
  have h1 : ¬ (((a : Nat) : Int) < 0) := by omega
  have h2 : ¬ (((a + r : Nat) : Int) < 0) := by omega
  simp only [slice, h1, h2, if_false]
  by_cases hle : a ≤ xs.length
  · have hk : (min ((a : Nat) : Int) (xs.length : Int)).toNat = a := by omega
    have hf : (min ((a + r : Nat) : Int) (xs.length : Int)
        - min ((a : Nat) : Int) (xs.length : Int)).toNat = min r (xs.length - a) := by omega
    rw [hk, hf]
    apply List.ext_getElem?
    intro i
    simp only [List.getElem?_take, List.getElem?_drop]
    by_cases hi : i < r
    · by_cases hi2 : i < xs.length - a
      · have : i < min r (xs.length - a) := by omega
        simp [this, hi]
      · have h3 : ¬ (i < min r (xs.length - a)) := by omega
        have h4 : xs.length ≤ a + i := by omega
        simp [h3, hi, List.getElem?_eq_none h4]
    · have h3 : ¬ (i < min r (xs.length - a)) := by omega
      simp [h3, hi]
  · have hk : (min ((a : Nat) : Int) (xs.length : Int)).toNat = xs.length := by omega
    have hd : xs.length ≤ a := by omega
    rw [hk, List.drop_length, List.drop_of_length_le hd]
    simp

theorem pageOf_eq (L : List Ticket) (p r : Nat) :
    ViewTickets.pageOf L p r = (L.drop (p * r)).take r := by
  unfold ViewTickets.pageOf
  exact slice_nat L (p * r) r

theorem pages_flatten (L : List Ticket) (r n : Nat) :
    ((List.range n).map (fun p => ViewTickets.pageOf L p r)).flatten = L.take (n * r) := by
  induction n with
  | zero => simp
  | succ n ih =>
    rw [List.range_succ, List.map_append, List.flatten_append, ih]
    simp only [List.map_cons, List.map_nil, List.flatten_cons, List.flatten_nil,
      List.append_nil, pageOf_eq]
    rw [Nat.succ_mul, List.take_add]

/-- C7: with `rowsPerPage = 10`, the page shown for page index `p` is the
elements of the filtered list `L` at positions `p*10 .. min(p*10 + 10, |L|) - 1`
in order, at most 10 entries, and the pages `0 .. ceil(|L| / 10) - 1`
concatenated in order give `L` back. -/
theorem C7_pagination (L : List Ticket) (p : Nat) :
    ViewTickets.pageOf L p 10 = (L.drop (p * 10)).take 10 ∧
    (ViewTickets.pageOf L p 10).length = min (p * 10 + 10) L.length - p * 10 ∧
    (ViewTickets.pageOf L p 10).length ≤ 10 ∧
    (∀ i, i < (ViewTickets.pageOf L p 10).length →
      (ViewTickets.pageOf L p 10)[i]? = L[p * 10 + i]?) ∧
    ((List.range ((L.length + 9) / 10)).map
      (fun q => ViewTickets.pageOf L q 10)).flatten = L := by
  have hlen : (ViewTickets.pageOf L p 10).length = min (p * 10 + 10) L.length - p * 10 := by
    rw [pageOf_eq, List.length_take, List.length_drop]
    omega
  refine ⟨pageOf_eq L p 10, hlen, ?_, ?_, ?_⟩
  · rw [hlen]; omega
  · intro i hi
    rw [hlen] at hi
    have hi10 : i < 10 := by omega
    rw [pageOf_eq, List.getElem?_take, List.getElem?_drop]
    simp [hi10]
  · rw [pages_flatten]
    apply List.take_of_length_le
    omega

/-- Witness for C7: twelve tickets; page 1 holds the last two. -/
theorem C7_pagination_witness :
    ViewTickets.pageOf
        ((List.replicate 10 (sampleTicket "a" JSValue.null))
          ++ [sampleTicket "b" JSValue.null, sampleTicket "c" JSValue.null]) 1 10
      = [sampleTicket "b" JSValue.null, sampleTicket "c" JSValue.null] :=
  (C7_pagination _ 1).1.trans (by decide)

/-! ## Theorems: search and page index -/

/-- C8: `handleSearchQueryChange` changes only `searchQuery`, the page index
stays. Hence there are a ticket list, a page index `p > 0` valid for the
unfiltered list and a non-empty query for which `filteredTickets` is non-empty
while `paginatedTickets` is empty. Two instances: eleven tickets of which only
the last has a title, searched with "b" (for every lower-casing function); and
eleven titled tickets of which only the last starts with "jazz" (under ASCII
lower-casing). -/
theorem C8_search_keeps_page :
    (∀ (value : String) (s : ViewTickets),
      (ViewTickets.handleSearchQueryChange value s).searchQuery = value ∧
      (ViewTickets.handleSearchQueryChange value s).page = s.page ∧
      (ViewTickets.handleSearchQueryChange value s).rowsPerPage = s.rowsPerPage ∧
      (ViewTickets.handleSearchQueryChange value s).ticketData = s.ticketData ∧
      (ViewTickets.handleSearchQueryChange value s).buttonStates = s.buttonStates ∧
      (ViewTickets.handleSearchQueryChange value s).searchCriteria = s.searchCriteria) ∧
    (∃ (s : ViewTickets) (q : String),
      0 < s.page ∧ s.rowsPerPage = 10 ∧ s.page * 10 < s.ticketData.length ∧ q ≠ "" ∧
      ∀ toLowerCase : String → String,
        ViewTickets.filteredTickets toLowerCase (ViewTickets.handleSearchQueryChange q s) ≠ [] ∧
        ViewTickets.paginatedTickets toLowerCase (ViewTickets.handleSearchQueryChange q s)
          = []) ∧
    (∃ (s : ViewTickets) (q : String),
      0 < s.page ∧ s.rowsPerPage = 10 ∧ s.page * 10 < s.ticketData.length ∧ q ≠ "" ∧
      ViewTickets.filteredTickets asciiLower (ViewTickets.handleSearchQueryChange q s) ≠ [] ∧
      ViewTickets.paginatedTickets asciiLower (ViewTickets.handleSearchQueryChange q s)
        = []) := by
  refine ⟨fun value s => ⟨rfl, rfl, rfl, rfl, rfl, rfl⟩, ?_, ?_⟩
  · refine ⟨{ ViewTickets.init with
              ticketData := List.replicate 10 (sampleTicket "a" JSValue.undefined)
                ++ [sampleTicket "k" (JSValue.string "b")]
              page := 1 }, "b", by decide, rfl, by decide, by decide, ?_⟩
    intro toLowerCase
    have hp : ∀ l : List Char, l.isPrefixOf l = true := fun l => by simp
    have hf : ViewTickets.filteredTickets toLowerCase
        (ViewTickets.handleSearchQueryChange "b"
          { ViewTickets.init with
            ticketData := List.replicate 10 (sampleTicket "a" JSValue.undefined)
              ++ [sampleTicket "k" (JSValue.string "b")]
            page := 1 })
        = [sampleTicket "k" (JSValue.string "b")] := by
      simp [ViewTickets.filteredTickets, ViewTickets.handleSearchQueryChange,
        ViewTickets.init, ViewTickets.searchCallback, sampleTicket, Ticket.get,
        JSValue.optToString, JSValue.isNullish, JSValue.truthy, JSValue.toStr,
        startsWith, List.filter, List.replicate, hp]
    refine ⟨by rw [hf]; simp, ?_⟩
    unfold ViewTickets.paginatedTickets
    rw [hf, pageOf_eq]
    rfl
  · exact ⟨{ ViewTickets.init with
             ticketData := List.replicate 10 (sampleTicket "a" (JSValue.string "Rock Night"))
               ++ [sampleTicket "k" (JSValue.string "Jazz Evening")]
             page := 1 }, "jazz", by decide, rfl, by decide, by decide, by decide, by decide⟩

/-! ## Theorems: Start/Stop buttons -/

theorem getKey_setKey {β : Type} (o : List (String × β)) (k k' : String) (v : β) :
    getKey (setKey o k v) k' = if k' = k then some v else getKey o k' := by
  by_cases h : k' = k
  · subst h
    simp [getKey_setKey_self]
  · simp [h, getKey_setKey_other o k k' v h]

theorem initialStates_fold (tickets : List Ticket) :
    ∀ acc : List (String × ButtonState),
      (∀ k b, getKey acc k = some b → b = { start := false, stop := false }) →
      ∀ k b,
        getKey (tickets.foldl
          (fun acc ticket => setKey acc ticket._id { start := false, stop := false }) acc) k
          = some b →
        b = { start := false, stop := false } := by
  induction tickets with
  | nil => intro acc h k b hb; exact h k b hb
  | cons t rest ih =>
    intro acc h k b hb
    simp only [List.foldl_cons] at hb
    refine ih _ ?_ k b hb
    intro k' b' hb'
    rw [getKey_setKey] at hb'
    split at hb'
    · exact (Option.some.inj hb').symm
    · exact h k' b' hb'

theorem initialStates_mem (tickets : List Ticket) :
    ∀ acc : List (String × ButtonState), ∀ k,
      ((∃ t ∈ tickets, t._id = k) ∨ (getKey acc k).isSome = true) →
      (getKey (tickets.foldl
        (fun acc ticket => setKey acc ticket._id { start := false, stop := false }) acc)
        k).isSome = true := by
  induction tickets with
  | nil =>
    intro acc k h
    rcases h with ⟨t, ht, _⟩ | h
    · cases ht
    · exact h
  | cons t rest ih =>
    intro acc k h
    simp only [List.foldl_cons]
    apply ih
    rcases h with ⟨t', ht', hk⟩ | h
    · rcases List.mem_cons.1 ht' with rfl | hmem
      · right
        rw [getKey_setKey, if_pos hk.symm]
        rfl
      · exact Or.inl ⟨t', hmem, hk⟩
    · right
      rw [getKey_setKey]
      split
      · rfl
      · exact h

theorem act_buttonStates (s : ViewTickets) (a : ViewTickets.Action) (k : String)
    (b : ButtonState) (h : getKey (s.act a).buttonStates k = some b) :
    getKey s.buttonStates k = some b ∨ ¬ (b.start = true ∧ b.stop = true) := by
  cases a with
  | start ticketId ok =>
    cases ok
    · exact Or.inl h
    · simp only [ViewTickets.act, ViewTickets.handleStartSimulation, if_true,
        getKey_setKey] at h
      split at h
      · right
        have := Option.some.inj h
        subst this
        simp
      · exact Or.inl h
  | stop ticketId ok =>
    cases ok
    · exact Or.inl h
    · simp only [ViewTickets.act, ViewTickets.handleStopSimulation, if_true,
        getKey_setKey] at h
      split at h
      · right
        have := Option.some.inj h
        subst this
        simp
      · exact Or.inl h

theorem trace_buttonStates (actions : List ViewTickets.Action) :
    ∀ s : ViewTickets,
      (∀ k b, getKey s.buttonStates k = some b → ¬ (b.start = true ∧ b.stop = true)) →
      ∀ s' ∈ s.trace actions, ∀ k b,
        getKey s'.buttonStates k = some b → ¬ (b.start = true ∧ b.stop = true) := by
  induction actions with
  | nil =>
    intro s hs s' hmem
    simp only [ViewTickets.trace, List.mem_singleton] at hmem
    subst hmem
    exact hs
  | cons a rest ih =>
    intro s hs s' hmem
    simp only [ViewTickets.trace, List.mem_cons] at hmem
    rcases hmem with rfl | hmem
    · exact hs
    · refine ih (s.act a) ?_ s' hmem
      intro k b hb
      rcases act_buttonStates s a k b hb with h | h
      · exact hs k b h
      · exact h

/-- C9: after the ticket fetch every ticket id is mapped to
`{start: false, stop: false}`. A successful start sets the entry of its ticket
id to `{start: true, stop: false}`, a successful stop to
`{start: false, stop: true}`, a failed request changes nothing. In every state
reached by a sequence of such outcomes no entry has `start` and `stop` both
true, so no row has its Start and Stop buttons both disabled; and each step
leaves the entries of all other ticket ids unchanged. -/
theorem C9_button_states (tickets : List Ticket) (s0 : ViewTickets)
    (actions : List ViewTickets.Action) :
    (∀ t ∈ tickets,
      getKey (ViewTickets.fetchTicketData (some tickets) s0).buttonStates t._id
        = some { start := false, stop := false }) ∧
    (∀ s ∈ (ViewTickets.fetchTicketData (some tickets) s0).trace actions, ∀ id : String,
      (∀ b, getKey s.buttonStates id = some b → ¬ (b.start = true ∧ b.stop = true)) ∧
      ¬ (s.startDisabled id = true ∧ s.stopDisabled id = true)) ∧
    (∀ (s : ViewTickets) (a : ViewTickets.Action) (id : String), id ≠ a.ticketId →
      getKey (s.act a).buttonStates id = getKey s.buttonStates id) ∧
    (∀ (s : ViewTickets) (id : String),
      getKey (s.act (ViewTickets.Action.start id true)).buttonStates id
        = some { start := true, stop := false } ∧
      getKey (s.act (ViewTickets.Action.stop id true)).buttonStates id
        = some { start := false, stop := true } ∧
      s.act (ViewTickets.Action.start id false) = s ∧
      s.act (ViewTickets.Action.stop id false) = s) := by
  have hinit : ∀ k b,
      getKey (ViewTickets.fetchTicketData (some tickets) s0).buttonStates k = some b →
      b = { start := false, stop := false } := by
    intro k b hb
    exact initialStates_fold tickets [] (fun k b h => by simp [getKey] at h) k b hb
  refine ⟨?_, ?_, ?_, ?_⟩
  · intro t ht
    have hsome := initialStates_mem tickets [] t._id (Or.inl ⟨t, ht, rfl⟩)
    cases hg : getKey (ViewTickets.fetchTicketData (some tickets) s0).buttonStates t._id with
    | none =>
      simp only [ViewTickets.fetchTicketData, ViewTickets.initialStates] at hg
      rw [hg] at hsome
      cases hsome
    | some b => rw [hinit _ b hg]
  · intro s hs id
    have hall := trace_buttonStates actions _
      (fun k b hb => by rw [hinit k b hb]; simp) s hs
    refine ⟨hall id, ?_⟩
    unfold ViewTickets.startDisabled ViewTickets.stopDisabled
    cases hg : getKey s.buttonStates id with
    | none => simp
    | some b => exact hall id b hg
  · intro s a id hne
    cases a with
    | start ticketId ok =>
      cases ok
      · rfl
      · exact getKey_setKey_other _ _ _ _ hne
    | stop ticketId ok =>
      cases ok
      · rfl
      · exact getKey_setKey_other _ _ _ _ hne
  · intro s id
    exact ⟨getKey_setKey_self _ _ _, getKey_setKey_self _ _ _, rfl, rfl⟩

/-- Witness for C9: two tickets; ticket "a" is started, a stop of "b" fails,
"a" is stopped and started again. The last state does not have Start and Stop
both disabled for "a". -/
theorem C9_button_states_witness :
    ¬ ((((((ViewTickets.fetchTicketData
          (some [sampleTicket "a" JSValue.null, sampleTicket "b" JSValue.null])
          ViewTickets.init).act (ViewTickets.Action.start "a" true)).act
            (ViewTickets.Action.stop "b" false)).act
            (ViewTickets.Action.stop "a" true)).act
            (ViewTickets.Action.start "a" true)).startDisabled "a" = true ∧
       (((((ViewTickets.fetchTicketData
          (some [sampleTicket "a" JSValue.null, sampleTicket "b" JSValue.null])
          ViewTickets.init).act (ViewTickets.Action.start "a" true)).act
            (ViewTickets.Action.stop "b" false)).act
            (ViewTickets.Action.stop "a" true)).act
            (ViewTickets.Action.start "a" true)).stopDisabled "a" = true) :=
  ((C9_button_states [sampleTicket "a" JSValue.null, sampleTicket "b" JSValue.null]
      ViewTickets.init
      [ViewTickets.Action.start "a" true, ViewTickets.Action.stop "b" false,
       ViewTickets.Action.stop "a" true, ViewTickets.Action.start "a" true]).2.1
    _ (by simp only [ViewTickets.trace, List.mem_cons, List.mem_singleton, or_true, true_or])
    "a").2

/-! ## Theorems: deletion -/

theorem handleDelete_closure (ticketData : List Ticket) (id : String) (s : ViewTickets) :
    (ViewTickets.handleDelete ticketData true id s).ticketData
      = ticketData.filter (fun t => decide (t._id ≠ id)) ∧
    (ViewTickets.handleDelete ticketData true id s).buttonStates = s.buttonStates ∧
    ViewTickets.handleDelete ticketData false id s = s := by
  refine ⟨?_, rfl, rfl⟩
  simp only [ViewTickets.handleDelete, if_true]
  apply List.filter_congr
  intro t _
  by_cases h : t._id = id <;> simp [h]

/-- C10: `handleDelete` filters the list its closure captured at render time,
not the list in the state when the request settles. Three tickets a, b, c are
rendered; Delete is clicked on a and then on b before either request settles,
so both handlers hold `[a, b, c]`; both requests succeed. After the first,
`ticketData` is `[b, c]`. After the second it is `[a, c]`: the deleted ticket a
is back, and the new list is not a sublist of the list before the call, where
the claim says it becomes the tickets of that list whose `_id` differs from
b. -/
theorem C10_stale_closure :
    (ViewTickets.handleDelete
        [sampleTicket "a" JSValue.null, sampleTicket "b" JSValue.null,
         sampleTicket "c" JSValue.null]
        true "a"
        (ViewTickets.fetchTicketData
          (some [sampleTicket "a" JSValue.null, sampleTicket "b" JSValue.null,
                 sampleTicket "c" JSValue.null])
          ViewTickets.init)).ticketData
      = [sampleTicket "b" JSValue.null, sampleTicket "c" JSValue.null] ∧
    (ViewTickets.handleDelete
        [sampleTicket "a" JSValue.null, sampleTicket "b" JSValue.null,
         sampleTicket "c" JSValue.null]
        true "b"
        (ViewTickets.handleDelete
          [sampleTicket "a" JSValue.null, sampleTicket "b" JSValue.null,
           sampleTicket "c" JSValue.null]
          true "a"
          (ViewTickets.fetchTicketData
            (some [sampleTicket "a" JSValue.null, sampleTicket "b" JSValue.null,
                   sampleTicket "c" JSValue.null])
            ViewTickets.init))).ticketData
      = [sampleTicket "a" JSValue.null, sampleTicket "c" JSValue.null] ∧
    ¬ [sampleTicket "a" JSValue.null, sampleTicket "c" JSValue.null]
      = [sampleTicket "b" JSValue.null, sampleTicket "c" JSValue.null].filter
          (fun t => decide (t._id ≠ "b")) ∧
    ¬ ([sampleTicket "a" JSValue.null, sampleTicket "c" JSValue.null].Sublist
        [sampleTicket "b" JSValue.null, sampleTicket "c" JSValue.null]) := by
  refine ⟨by decide, by decide, by decide, ?_⟩
  intro h
  have hmem : sampleTicket "a" JSValue.null
      ∈ [sampleTicket "b" JSValue.null, sampleTicket "c" JSValue.null] :=
    h.subset (List.mem_cons_self _ _)
  revert hmem
  decide

end TicketBooking
